import Mathlib

/-!
Shallow embedding, in Lean 4, of the two-stage image-processing pipeline of
the Drishtikon repository (`app/services/image_processing.py` together with
the enumerations of `app/models/image_processing.py` and the settings of
`app/core/config.py`), with theorems settling the behavioural claims about
the prompt registry, the orchestrator state machine, the gateway dispatch
and the template substitution step.

Model conventions:
* Python `Optional[str]` fields become `Option String`; Python truthiness of
  an optional string (`None` and `""` are falsy) is `optTruthy`.
* Exceptions become `Except PyError`; `except Exception` blocks become an
  explicit `match` on that value.  `PyError.str` renders `str(e)`.
* Network I/O and wall-clock time are inputs of the model: an `Oracle`
  supplies the outcome of each outbound OpenAI HTTP call and each measured
  duration, and the commit outcome of the final database write.
* The prompt dictionary built by `_initialize_prompt_templates` mixes two
  kinds of keys — five `ProcessingMode` enum members and twelve plain
  strings — so the key type of the embedded registry is the sum
  `TemplateKey` of the two.
-/

namespace Drishtikon

/-- The single-quote character, used to render Python `repr` strings. -/
def sq : String := String.singleton (Char.ofNat 39)

/-- Enum `ProcessingMode` of `app/models/image_processing.py` (18 members). -/
inductive ProcessingMode where
  | DESCRIPTION
  | OCR
  | SCENE_ANALYSIS
  | DOCUMENT_READING
  | ACCESSIBILITY
  | CUSTOM
  | CURRENCY_RECOGNITION
  | COLOR_ANALYSIS
  | OBJECT_RECOGNITION
  | FACE_RECOGNITION
  | PRODUCT_IDENTIFICATION
  | HAZARD_DETECTION
  | TRANSPORT_INFORMATION
  | MEDICINE_IDENTIFICATION
  | EMOTIONAL_ANALYSIS
  | IMAGE_COMPARISON
  | DOCUMENT_SUMMARIZATION
  | AUDIO_DESCRIPTION
  deriving DecidableEq, Repr

/-- The `.value` string of each `ProcessingMode` member, as declared in the
Python enum. -/
def ProcessingMode.value : ProcessingMode → String
  | .DESCRIPTION => "description"
  | .OCR => "ocr"
  | .SCENE_ANALYSIS => "scene_analysis"
  | .DOCUMENT_READING => "document_reading"
  | .ACCESSIBILITY => "accessibility"
  | .CUSTOM => "custom"
  | .CURRENCY_RECOGNITION => "currency_recognition"
  | .COLOR_ANALYSIS => "color_analysis"
  | .OBJECT_RECOGNITION => "object_recognition"
  | .FACE_RECOGNITION => "face_recognition"
  | .PRODUCT_IDENTIFICATION => "product_identification"
  | .HAZARD_DETECTION => "hazard_detection"
  | .TRANSPORT_INFORMATION => "transport_information"
  | .MEDICINE_IDENTIFICATION => "medicine_identification"
  | .EMOTIONAL_ANALYSIS => "emotional_analysis"
  | .IMAGE_COMPARISON => "image_comparison"
  | .DOCUMENT_SUMMARIZATION => "document_summarization"
  | .AUDIO_DESCRIPTION => "audio_description"

/-- The Python member name of each `ProcessingMode` member (used by the
`repr` that `str(KeyError(mode))` produces). -/
def ProcessingMode.memberName : ProcessingMode → String
  | .DESCRIPTION => "DESCRIPTION"
  | .OCR => "OCR"
  | .SCENE_ANALYSIS => "SCENE_ANALYSIS"
  | .DOCUMENT_READING => "DOCUMENT_READING"
  | .ACCESSIBILITY => "ACCESSIBILITY"
  | .CUSTOM => "CUSTOM"
  | .CURRENCY_RECOGNITION => "CURRENCY_RECOGNITION"
  | .COLOR_ANALYSIS => "COLOR_ANALYSIS"
  | .OBJECT_RECOGNITION => "OBJECT_RECOGNITION"
  | .FACE_RECOGNITION => "FACE_RECOGNITION"
  | .PRODUCT_IDENTIFICATION => "PRODUCT_IDENTIFICATION"
  | .HAZARD_DETECTION => "HAZARD_DETECTION"
  | .TRANSPORT_INFORMATION => "TRANSPORT_INFORMATION"
  | .MEDICINE_IDENTIFICATION => "MEDICINE_IDENTIFICATION"
  | .EMOTIONAL_ANALYSIS => "EMOTIONAL_ANALYSIS"
  | .IMAGE_COMPARISON => "IMAGE_COMPARISON"
  | .DOCUMENT_SUMMARIZATION => "DOCUMENT_SUMMARIZATION"
  | .AUDIO_DESCRIPTION => "AUDIO_DESCRIPTION"

/-- The twelve specialized modes (every member that is neither one of the
five standard modes nor `CUSTOM`). -/
def specializedModes : List ProcessingMode :=
  [ .CURRENCY_RECOGNITION, .COLOR_ANALYSIS, .OBJECT_RECOGNITION,
    .FACE_RECOGNITION, .PRODUCT_IDENTIFICATION, .HAZARD_DETECTION,
    .TRANSPORT_INFORMATION, .MEDICINE_IDENTIFICATION, .EMOTIONAL_ANALYSIS,
    .IMAGE_COMPARISON, .DOCUMENT_SUMMARIZATION, .AUDIO_DESCRIPTION ]

/-- The five standard non-custom modes, registered under their enum member. -/
def standardModes : List ProcessingMode :=
  [ .DESCRIPTION, .OCR, .SCENE_ANALYSIS, .DOCUMENT_READING, .ACCESSIBILITY ]

/-- Enum `ProcessingStatus` of `app/models/image_processing.py`. -/
inductive ProcessingStatus where
  | PENDING
  | PROCESSING
  | COMPLETED
  | FAILED
  deriving DecidableEq, Repr

/-- Enum `ImageType` of `app/models/image_processing.py`. -/
inductive ImageType where
  | SCENE
  | DOCUMENT
  | PRODUCT
  | CHART
  | TEXT
  | OTHER
  deriving DecidableEq, Repr

/-- A key of the Python dict `self.prompt_templates`.  The dict literal in
`_initialize_prompt_templates` uses `ProcessingMode` members as keys for the
five standard modes and plain strings (the `.value` spellings) for the
twelve specialized modes, so the key type is a sum of the two. -/
inductive TemplateKey where
  | enumKey (m : ProcessingMode)
  | strKey (s : String)
  deriving DecidableEq, Repr

/-- One value of the `prompt_templates` dict: the inner dict with the two
entries `"vlm"` and `"llm"`. -/
structure PromptEntry where
  vlm : String
  llm : String
  deriving DecidableEq, Repr

/-- The "vlm" prompt registered for `DESCRIPTION`. -/
def descriptionVlm : String :=
  "Describe this image in detail."

/-- The "llm" rewrite template registered for `DESCRIPTION`. -/
def descriptionLlm : String :=
  "\n                    You are an assistant for visually impaired people.\n                    Analyze the following image description and provide a clear,\n                    concise, and informative response that helps the user understand\n                    what\x27s in the image.\n                    \n                    Image description:\n                    {vlm_description}\n                    \n                    Provide your response in a way that is easy to understand for\n                    someone who cannot see. Focus on the most important aspects first.\n                "

/-- The "vlm" prompt registered for `OCR`. -/
def ocrVlm : String :=
  "Read and extract all text visible in this image. Output the text exactly as it appears."

/-- The "llm" rewrite template registered for `OCR`. -/
def ocrLlm : String :=
  "\n                    You are an assistant for visually impaired people.\n                    The user has uploaded an image containing text, and a vision model\n                    has extracted the following text content:\n                    \n                    {vlm_description}\n                    \n                    Please format this text in a clean, structured way. \n                    Correct any obvious OCR errors, but preserve the original meaning.\n                    Organize it into paragraphs, bullet points, or sections if appropriate.\n                    If there appears to be formatting like tables, try to represent that structure.\n                "

/-- The "vlm" prompt registered for `SCENE_ANALYSIS`. -/
def sceneAnalysisVlm : String :=
  "Analyze this scene in detail. Identify all objects, people, activities, and environmental details."

/-- The "llm" rewrite template registered for `SCENE_ANALYSIS`. -/
def sceneAnalysisLlm : String :=
  "\n                    You are an assistant for visually impaired people.\n                    The user has uploaded an image of a scene, and a vision model\n                    has provided the following analysis:\n                    \n                    {vlm_description}\n                    \n                    Please provide:\n                    1. A concise summary of the scene (1-2 sentences)\n                    2. Key elements in the scene (people, objects, etc.)\n                    3. Spatial relationships between elements\n                    4. Relevant context or activities occurring\n                    5. Any potential hazards or important information for navigation\n                    \n                    Format your response in a way that provides the most crucial information first,\n                    followed by details, in a clear and structured manner.\n                "

/-- The "vlm" prompt registered for `DOCUMENT_READING`. -/
def documentReadingVlm : String :=
  "This image contains a document. Extract all text, preserve formatting, and describe any non-text elements like logos or signatures."

/-- The "llm" rewrite template registered for `DOCUMENT_READING`. -/
def documentReadingLlm : String :=
  "\n                    You are an assistant for visually impaired people.\n                    The user has uploaded an image of a document, and a vision model\n                    has extracted the following content:\n                    \n                    {vlm_description}\n                    \n                    Please:\n                    1. Format the document content clearly with appropriate structure\n                    2. Identify the type of document if possible\n                    3. Highlight key information (dates, amounts, signatures, etc.)\n                    4. Summarize any non-text elements that were mentioned\n                    \n                    Present the information in a logical, structured way that makes the document\n                    content accessible and easy to understand.\n                "

/-- The "vlm" prompt registered for `ACCESSIBILITY`. -/
def accessibilityVlm : String :=
  "Describe this image for a visually impaired person. Focus on essential details and any information that would be important for understanding the context."

/-- The "llm" rewrite template registered for `ACCESSIBILITY`. -/
def accessibilityLlm : String :=
  "\n                    You are an accessibility assistant for visually impaired people.\n                    The user has uploaded an image, and a vision model has provided\n                    the following description:\n                    \n                    {vlm_description}\n                    \n                    Please create an accessible description that:\n                    1. Starts with the most essential information\n                    2. Is concise but complete\n                    3. Provides spatial and contextual information\n                    4. Describes important colors, expressions, or details when relevant\n                    5. Avoids unnecessary details\n                    6. Uses clear, straightforward language\n                    \n                    Your goal is to give the user a clear mental image that communicates the\n                    same information a sighted person would get from glancing at the image.\n                "

/-- The "vlm" prompt registered for `currency_recognition`. -/
def currencyRecognitionVlm : String :=
  "\n                Analyze this image as if you\x27re helping a visually impaired person identify currency.\n                Identify:\n                1. The type of currency (e.g., US Dollar, Euro, etc.)\n                2. The denomination (e.g., $1, $5, €10, etc.)\n                3. Visual markers that help identify the note (e.g., color, size, unique features)\n                4. Any security features visible\n\n                Provide a clear, concise description that would help someone who cannot see verify what currency they\x27re holding.\n                "

/-- The "llm" rewrite template registered for `currency_recognition`. -/
def currencyRecognitionLlm : String :=
  "\n                    You are a specialized assistant for visually impaired people.\n                    The user has uploaded an image of currency, and a vision model has provided\n                    the following analysis:\n                    \n                    {vlm_description}\n                    \n                    Please structure the information in the following way:\n                    1. Currency type and denomination (at the beginning)\n                    2. Key identifying features, especially tactile ones\n                    3. Security features that can be felt or seen under different conditions\n                    4. Any additional verification methods\n                    \n                    Prioritize information that would be most useful for someone who cannot see to\n                    confidently identify the currency they\x27re holding.\n                "

/-- The "vlm" prompt registered for `color_analysis`. -/
def colorAnalysisVlm : String :=
  "\n                Analyze this image focusing exclusively on colors for a visually impaired person.\n                Identify:\n                1. The dominant colors in the image (name them and describe their general location)\n                2. The overall color scheme (warm, cool, monochromatic, complementary, etc.)\n                3. The contrast level between elements\n                4. Any color patterns or gradients\n                \n                Provide a clear, descriptive explanation of the colors in the image that would help\n                someone who cannot see understand the color composition.\n                "

/-- The "llm" rewrite template registered for `color_analysis`. -/
def colorAnalysisLlm : String :=
  "\n                    You are a specialized color analyst for visually impaired people.\n                    The user has uploaded an image, and a vision model has analyzed\n                    the colors as follows:\n                    \n                    {vlm_description}\n                    \n                    Please reorganize this information to:\n                    1. Name each significant color with its common name and location\n                    2. Describe the emotional impact or mood created by the color scheme\n                    3. Explain contrast relationships between elements\n                    4. Relate colors to common references (e.g., \"sky blue\", \"forest green\")\n                    \n                    Make your description vivid and relatable for someone who may have limited\n                    or no color vision, using analogies and comparisons where helpful.\n                "

/-- The "vlm" prompt registered for `object_recognition`. -/
def objectRecognitionVlm : String :=
  "\n                Analyze this image to identify objects and their spatial relationships for a visually impaired person.\n                For each significant object, provide:\n                1. What the object is\n                2. Where it\x27s located in the image (e.g., \"top left\", \"center\")\n                3. Its approximate size relative to the image\n                4. How it relates to other objects (e.g., \"the cup is on the table\", \"the chair is to the right of the desk\")\n                \n                Also identify:\n                - The type of scene (indoor, outdoor, kitchen, office, etc.)\n                - The general spatial layout\n                - Any information that would be useful for navigation or orientation\n                \n                Present this information in a clear, structured way that would help someone who cannot see understand the spatial arrangement.\n                "

/-- The "llm" rewrite template registered for `object_recognition`. -/
def objectRecognitionLlm : String :=
  "\n                    You are a specialized spatial analyst for visually impaired people.\n                    The user has uploaded an image, and a vision model has analyzed\n                    the objects and their relationships as follows:\n                    \n                    {vlm_description}\n                    \n                    Please reorganize this information to provide:\n                    1. A brief overview of the scene type and general layout\n                    2. A systematic description of objects from most to least important\n                    3. Clear spatial relationships using clock positions and distances\n                    4. Navigation guidance if applicable\n                    \n                    Use consistent directional language and reference points to help the user\n                    build a mental map of the scene.\n                "

/-- The "vlm" prompt registered for `face_recognition`. -/
def faceRecognitionVlm : String :=
  "\n                Analyze this image to identify people and faces for a visually impaired person.\n                For each person visible, describe:\n                1. Their position in the image\n                2. Their apparent facial expression\n                3. What they\x27re wearing\n                4. Any distinguishing features\n                5. The context of the group if multiple people are present\n                \n                Provide a comprehensive description that would help someone who cannot see understand who is in the image,\n                what they look like, and what the social context might be.\n                "

/-- The "llm" rewrite template registered for `face_recognition`. -/
def faceRecognitionLlm : String :=
  "\n                    You are a specialized face and expression analyst for visually impaired people.\n                    The user has uploaded an image, and a vision model has analyzed\n                    the people in the image as follows:\n                    \n                    {vlm_description}\n                    \n                    Please reorganize this information to:\n                    1. Identify each person by position and distinctive features\n                    2. Describe facial expressions and apparent emotions\n                    3. Note clothing and appearance details that help identify individuals\n                    4. Explain the apparent social context and relationships\n                    \n                    Focus on the emotional and social information conveyed through expressions\n                    and body language that might be missed without vision.\n                "

/-- The "vlm" prompt registered for `product_identification`. -/
def productIdentificationVlm : String :=
  "\n                Analyze this image to identify a product for a visually impaired person.\n                Please identify:\n                1. The product name and brand\n                2. Any barcode or QR code visible (and if possible, the value)\n                3. The type of product\n                4. A description of the packaging\n                5. For food items: nutrition information including calories, fat, carbs, protein\n                6. For food items: list of ingredients and potential allergens\n                \n                Provide a clear, detailed description that would help someone who cannot see understand what product they\x27re holding.\n                "

/-- The "llm" rewrite template registered for `product_identification`. -/
def productIdentificationLlm : String :=
  "\n                    You are a specialized product identification assistant for visually impaired people.\n                    The user has uploaded an image of a product, and a vision model has analyzed\n                    it as follows:\n                    \n                    {vlm_description}\n                    \n                    Please reorganize this information to provide:\n                    1. Product identification (name, brand, type) at the beginning\n                    2. Key packaging features that help with identification\n                    3. Important consumer information (nutrition, ingredients, allergens)\n                    4. Usage or preparation instructions if visible\n                    5. Expiration dates or other time-sensitive information\n                    \n                    Prioritize information that would help the user confidently identify the product\n                    and determine its usability for their needs.\n                "

/-- The "vlm" prompt registered for `hazard_detection`. -/
def hazardDetectionVlm : String :=
  "\n                Analyze this image to identify potential hazards for a visually impaired person.\n                Please identify:\n                1. Any obstacles, steps, uneven surfaces, or barriers\n                2. Potential tripping or falling hazards\n                3. Moving hazards like vehicles or bicycles\n                4. Safe areas or paths for navigation\n                5. Any warning signs or signals visible\n                \n                Rate each hazard\x27s severity (low, medium, high) and provide clear location information.\n                Give specific advice that would help someone who cannot see navigate this environment safely.\n                "

/-- The "llm" rewrite template registered for `hazard_detection`. -/
def hazardDetectionLlm : String :=
  "\n                    You are a specialized safety assistant for visually impaired people.\n                    The user has uploaded an image of an environment, and a vision model has\n                    identified potential hazards as follows:\n                    \n                    {vlm_description}\n                    \n                    Please reorganize this information to:\n                    1. Highlight critical safety concerns first (high severity hazards)\n                    2. Provide clear location information for each hazard\n                    3. Suggest safe navigation paths or alternatives\n                    4. Mention relevant warning signs or signals\n                    \n                    Use directional language that doesn\x27t rely on visual cues, and prioritize\n                    information that would prevent accidents or injuries.\n                "

/-- The "vlm" prompt registered for `transport_information`. -/
def transportInformationVlm : String :=
  "\n                Analyze this image to identify public transportation information for a visually impaired person.\n                Please identify:\n                1. The type of transport (bus, train, subway, etc.)\n                2. Route numbers, line colors, or service names\n                3. Destinations or next stops\n                4. Departure times\n                5. Platform or stop numbers\n                6. Any other relevant information like delays or service changes\n                7. Important symbols or icons visible\n                \n                Read all text visible on signs, displays, or the vehicle itself.\n                Provide a clear, structured description that would help someone who cannot see navigate public transportation.\n                "

/-- The "llm" rewrite template registered for `transport_information`. -/
def transportInformationLlm : String :=
  "\n                    You are a specialized public transport assistant for visually impaired people.\n                    The user has uploaded an image related to public transportation, and a vision\n                    model has extracted the following information:\n                    \n                    {vlm_description}\n                    \n                    Please reorganize this information to provide:\n                    1. Transport type and identifier (route/line) at the beginning\n                    2. Destination and next stop information\n                    3. Timing information (departures, estimated arrival)\n                    4. Platform/location information\n                    5. Any service alerts or changes\n                    \n                    Present the information in order of urgency/importance for someone navigating\n                    the transport system without visual cues.\n                "

/-- The "vlm" prompt registered for `medicine_identification`. -/
def medicineIdentificationVlm : String :=
  "\n                Analyze this image to identify medication for a visually impaired person.\n                Please describe in detail:\n                1. The name of the medication if identifiable\n                2. The form (pill, capsule, tablet, liquid, etc.)\n                3. Color, shape, size and any markings or imprints\n                4. Any visible text on packaging including manufacturer\n                5. Any dosage information visible\n                6. Any warning labels or special instructions visible\n                \n                Provide a clear, detailed description that would help someone who cannot see identify their medication safely.\n                IMPORTANT: If you are not certain about the identification, clearly state this and focus on describing the physical characteristics.\n                "

/-- The "llm" rewrite template registered for `medicine_identification`. -/
def medicineIdentificationLlm : String :=
  "\n                    You are a specialized medication identification assistant for visually impaired people.\n                    The user has uploaded an image of medication, and a vision model has analyzed\n                    it as follows:\n                    \n                    {vlm_description}\n                    \n                    Please reorganize this information to provide:\n                    1. Medication identification (name, strength) if confident\n                    2. Physical characteristics (color, shape, markings)\n                    3. Packaging details that help with identification\n                    4. Dosage information if visible\n                    5. Important warnings or instructions\n                    \n                    IMPORTANT: Emphasize safety. If there is any uncertainty about the identification,\n                    clearly state this and focus on physical characteristics without making definitive claims.\n                    Recommend consultation with a pharmacist or healthcare provider when appropriate.\n                "

/-- The "vlm" prompt registered for `emotional_analysis`. -/
def emotionalAnalysisVlm : String :=
  "\n                Analyze this image to identify the emotions of people for a visually impaired person.\n                For each person visible, describe:\n                1. Their position in the image so they can be identified\n                2. Their primary emotion (happy, sad, angry, surprised, fearful, disgusted, neutral, etc.)\n                3. Any secondary emotions that might be present\n                4. Visual cues that indicate these emotions (facial expressions, body language, gestures)\n                5. The social context of the scene and the emotional tone of the group if multiple people\n                \n                Provide a clear, nuanced description that would help someone who cannot see understand the emotional states and social dynamics.\n                "

/-- The "llm" rewrite template registered for `emotional_analysis`. -/
def emotionalAnalysisLlm : String :=
  "\n                    You are a specialized emotion and social dynamics analyst for visually impaired people.\n                    The user has uploaded an image with people, and a vision model has analyzed\n                    their emotional expressions as follows:\n                    \n                    {vlm_description}\n                    \n                    Please reorganize this information to:\n                    1. Identify each person\x27s location and distinguishing features\n                    2. Describe their emotional states and the visual cues that indicate them\n                    3. Explain the apparent social dynamics between people\n                    4. Provide context about the overall emotional tone of the scene\n                    \n                    Focus on the subtle social and emotional information that would normally be\n                    conveyed visually, using specific descriptions of facial expressions and body language.\n                "

/-- The "vlm" prompt registered for `image_comparison`. -/
def imageComparisonVlm : String :=
  "\n                Compare these two images for a visually impaired person.\n                \n                For the first image: Describe the key elements, objects, people, colors, and overall scene.\n                For the second image: Describe the key elements in the same way.\n                \n                Then provide a detailed comparison:\n                1. Overall similarity level between the images\n                2. Specific differences in objects, people, positions, colors, lighting, etc.\n                3. Any temporal changes (if they appear to be the same scene at different times)\n                4. If one image appears to be newer than the other\n                \n                Provide a clear, structured comparison that would help someone who cannot see understand how these images relate to each other.\n                "

/-- The "llm" rewrite template registered for `image_comparison`. -/
def imageComparisonLlm : String :=
  "\n                    You are a specialized image comparison assistant for visually impaired people.\n                    The user has uploaded two images for comparison, and a vision model has\n                    analyzed them as follows:\n                    \n                    {vlm_description}\n                    \n                    Please reorganize this information to:\n                    1. Summarize the key elements in each image separately\n                    2. Highlight the most significant similarities\n                    3. Emphasize the most notable differences\n                    4. Explain any temporal or contextual relationship between the images\n                    \n                    Focus on providing a clear understanding of how these images relate to each other\n                    and what key differences would be immediately apparent to someone with vision.\n                "

/-- The "vlm" prompt registered for `document_summarization`. -/
def documentSummarizationVlm : String :=
  "\n                Analyze this document image for a visually impaired person.\n                Please:\n                1. Extract all text visible in the document\n                2. Identify the document type (letter, form, receipt, article, etc.)\n                3. Determine the logical reading order of sections/paragraphs\n                4. Create a concise summary of the key information\n                5. List the 3-5 most important points\n                6. Estimate reading time for the full document\n                \n                Organize the information clearly, with headings for each section, to help someone who cannot see understand the document content efficiently.\n                "

/-- The "llm" rewrite template registered for `document_summarization`. -/
def documentSummarizationLlm : String :=
  "\n                    You are a specialized document analysis assistant for visually impaired people.\n                    The user has uploaded an image of a document, and a vision model has\n                    extracted and analyzed the content as follows:\n                    \n                    {vlm_description}\n                    \n                    Please reorganize this information to:\n                    1. Identify the document type and purpose upfront\n                    2. Provide a concise summary of the key information (1-3 sentences)\n                    3. List the most important points in order of significance\n                    4. Structure the full content in a logical reading order\n                    5. Highlight any action items or deadlines\n                    \n                    Focus on making the document content accessible and easily navigable through\n                    clear structure and prioritization of information.\n                "

/-- The "vlm" prompt registered for `audio_description`. -/
def audioDescriptionVlm : String :=
  "\n                Create an audio description of this image for a visually impaired person.\n                \n                Format your description specifically for text-to-speech reading:\n                1. Structure sentences for clear listening (not reading)\n                2. Mark points that should be emphasized with *asterisks*\n                3. Indicate where pauses should occur with (pause)\n                4. Start with the most important information\n                5. Be specific about spatial relationships\n                6. Avoid visual references like \"as you can see\" or \"shown here\"\n                \n                Also provide guidance on the ideal speaking speed for this description.\n                "

/-- The "llm" rewrite template registered for `audio_description`. -/
def audioDescriptionLlm : String :=
  "\n                    You are a specialized audio description creator for visually impaired people.\n                    The user has uploaded an image, and a vision model has provided\n                    the following description:\n                    \n                    {vlm_description}\n                    \n                    Please transform this into a proper audio description by:\n                    1. Restructuring for listening rather than reading\n                    2. Adding emphasis markers (*word*) on key elements\n                    3. Adding pause indicators (pause) at natural break points\n                    4. Removing visual references\n                    5. Using consistent spatial language\n                    6. Including guidance on speaking pace\n                    \n                    Format the description so it would flow naturally when read aloud by\n                    a text-to-speech system or human reader.\n                "

/-- The dict literal assigned to `self.prompt_templates` by
`_initialize_prompt_templates` (lines 40-506 of
`app/services/image_processing.py`), in source order.  The five standard
modes are keyed by the enum member itself; the twelve specialized modes are
keyed by plain strings. -/
def promptTemplates : List (TemplateKey × PromptEntry) :=
  [
    (TemplateKey.enumKey ProcessingMode.DESCRIPTION, ⟨descriptionVlm, descriptionLlm⟩),
    (TemplateKey.enumKey ProcessingMode.OCR, ⟨ocrVlm, ocrLlm⟩),
    (TemplateKey.enumKey ProcessingMode.SCENE_ANALYSIS, ⟨sceneAnalysisVlm, sceneAnalysisLlm⟩),
    (TemplateKey.enumKey ProcessingMode.DOCUMENT_READING, ⟨documentReadingVlm, documentReadingLlm⟩),
    (TemplateKey.enumKey ProcessingMode.ACCESSIBILITY, ⟨accessibilityVlm, accessibilityLlm⟩),
    (TemplateKey.strKey "currency_recognition", ⟨currencyRecognitionVlm, currencyRecognitionLlm⟩),
    (TemplateKey.strKey "color_analysis", ⟨colorAnalysisVlm, colorAnalysisLlm⟩),
    (TemplateKey.strKey "object_recognition", ⟨objectRecognitionVlm, objectRecognitionLlm⟩),
    (TemplateKey.strKey "face_recognition", ⟨faceRecognitionVlm, faceRecognitionLlm⟩),
    (TemplateKey.strKey "product_identification", ⟨productIdentificationVlm, productIdentificationLlm⟩),
    (TemplateKey.strKey "hazard_detection", ⟨hazardDetectionVlm, hazardDetectionLlm⟩),
    (TemplateKey.strKey "transport_information", ⟨transportInformationVlm, transportInformationLlm⟩),
    (TemplateKey.strKey "medicine_identification", ⟨medicineIdentificationVlm, medicineIdentificationLlm⟩),
    (TemplateKey.strKey "emotional_analysis", ⟨emotionalAnalysisVlm, emotionalAnalysisLlm⟩),
    (TemplateKey.strKey "image_comparison", ⟨imageComparisonVlm, imageComparisonLlm⟩),
    (TemplateKey.strKey "document_summarization", ⟨documentSummarizationVlm, documentSummarizationLlm⟩),
    (TemplateKey.strKey "audio_description", ⟨audioDescriptionVlm, audioDescriptionLlm⟩)
  ]

/-- Python dict lookup `self.prompt_templates[key]` on the association list
above (first match; the dict literal has no duplicate keys). -/
def lookupTemplate : List (TemplateKey × PromptEntry) → TemplateKey → Option PromptEntry
  | [], _ => none
  | (k, e) :: rest, key => if key = k then some e else lookupTemplate rest key

/-- `self.prompt_templates[key]` as an `Option`. -/
def promptLookup (key : TemplateKey) : Option PromptEntry :=
  lookupTemplate promptTemplates key

/-- Truthiness of a Python `Optional[str]`: `None` and `""` are falsy. -/
def optTruthy : Option String → Bool
  | none => false
  | some s => s != ""

/-- Embedded Python exception values raised inside the pipeline. -/
inductive PyError where
  /-- A `KeyError` raised by the dict access `self.prompt_templates[...]`. -/
  | keyError (k : TemplateKey)
  /-- A `ValueError(msg)` raised by the provider dispatch. -/
  | valueError (msg : String)
  /-- A `KeyError` raised by `str.format` for an unknown field name. -/
  | formatKeyError (field : String)
  /-- A `ValueError`/`IndexError` raised by `str.format` for malformed or
  empty replacement fields. -/
  | formatError (msg : String)
  /-- The `Exception` re-raised by the `except` block of an OpenAI helper. -/
  | providerError (msg : String)
  deriving DecidableEq, Repr

/-- Rendering `str(e)`: `str` of a `KeyError` is the `repr` of its key (for
an enum member that is `<ProcessingMode.NAME: 'value'>`, for a string its
quoted spelling); `str` of the other exception types is their message. -/
def PyError.str : PyError → String
  | .keyError (TemplateKey.enumKey m) =>
      "<ProcessingMode." ++ m.memberName ++ ": " ++ sq ++ m.value ++ sq ++ ">"
  | .keyError (TemplateKey.strKey s) => sq ++ s ++ sq
  | .valueError msg => msg
  | .formatKeyError field => sq ++ field ++ sq
  | .formatError msg => msg
  | .providerError msg => msg

/-- The opening-brace character of a replacement field. -/
def openBrace : Char := Char.ofNat 123

/-- The closing-brace character of a replacement field. -/
def closeBrace : Char := Char.ofNat 125

/-- The one keyword argument passed to `.format` at line 647. -/
def vlmFieldName : List Char := "vlm_description".toList

/-- Message of the `ValueError` for a lone opening brace at end of string. -/
def singleOpenMsg : String :=
  "Single " ++ sq ++ "\x7b" ++ sq ++ " encountered in format string"

/-- Message of the `ValueError` for a lone closing brace. -/
def singleCloseMsg : String :=
  "Single " ++ sq ++ "\x7d" ++ sq ++ " encountered in format string"

/-- Message of the `ValueError` for an unterminated replacement field. -/
def expectedCloseMsg : String :=
  "expected " ++ sq ++ "\x7d" ++ sq ++ " before end of string"

/-- Message of the `IndexError` for an empty replacement field, given that
no positional arguments are passed at line 647. -/
def emptyFieldMsg : String :=
  "Replacement index 0 out of range for positional args tuple"

/-- Message of the `ValueError` for an opening brace inside a field name. -/
def unexpectedOpenMsg : String :=
  "unexpected " ++ sq ++ "\x7b" ++ sq ++ " in field name"

/-- Scanner state for the embedding of `str.format`. -/
inductive ScanState where
  | normal
  | sawOpen
  | sawClose
  | inField (acc : List Char)
  deriving DecidableEq, Repr

/-- Apply `f` to the output of a successful scan, propagate errors. -/
def mapOut (f : List Char → List Char) :
    Except PyError (List Char) → Except PyError (List Char)
  | Except.ok out => Except.ok (f out)
  | Except.error e => Except.error e

/-- Embedding of CPython `str.format` called with the single keyword
argument `vlm_description` (the only call shape in the pipeline, line 647).
`v` is the replacement text; `{vlm_description}` fields are substituted
(the substituted text is not re-scanned, as in CPython), `\x7b\x7b`/`\x7d\x7d`
escapes produce literal braces, any other replacement field raises (CPython
raises `KeyError` for an unknown keyword name and `IndexError` for a
positional field, since no positional arguments are supplied), and
malformed braces raise `ValueError`.  Conversion and format-spec syntax
(`!r`, `:spec`) is not used by any registered template and is treated as
part of the field name. -/
def formatScan (v : List Char) : ScanState → List Char → Except PyError (List Char)
  | ScanState.normal, [] => Except.ok []
  | ScanState.normal, c :: rest =>
    if c = openBrace then formatScan v ScanState.sawOpen rest
    else if c = closeBrace then formatScan v ScanState.sawClose rest
    else mapOut (fun out => c :: out) (formatScan v ScanState.normal rest)
  | ScanState.sawOpen, [] => Except.error (PyError.formatError singleOpenMsg)
  | ScanState.sawOpen, c :: rest =>
    if c = openBrace then
      mapOut (fun out => openBrace :: out) (formatScan v ScanState.normal rest)
    else if c = closeBrace then Except.error (PyError.formatError emptyFieldMsg)
    else formatScan v (ScanState.inField [c]) rest
  | ScanState.sawClose, [] => Except.error (PyError.formatError singleCloseMsg)
  | ScanState.sawClose, c :: rest =>
    if c = closeBrace then
      mapOut (fun out => closeBrace :: out) (formatScan v ScanState.normal rest)
    else Except.error (PyError.formatError singleCloseMsg)
  | ScanState.inField _, [] => Except.error (PyError.formatError expectedCloseMsg)
  | ScanState.inField acc, c :: rest =>
    if c = closeBrace then
      if acc.reverse = vlmFieldName then
        mapOut (fun out => v ++ out) (formatScan v ScanState.normal rest)
      else Except.error (PyError.formatKeyError (String.mk acc.reverse))
    else if c = openBrace then Except.error (PyError.formatError unexpectedOpenMsg)
    else formatScan v (ScanState.inField (c :: acc)) rest

/-- `template.format(vlm_description=value)` as called at line 647. -/
def pyFormat (template value : String) : Except PyError String :=
  match formatScan value.toList ScanState.normal template.toList with
  | Except.ok out => Except.ok (String.mk out)
  | Except.error e => Except.error e

/-- The settings fields read by `ImageProcessingService.__init__`
(`app/core/config.py`: providers default to `"openai"`, the three API keys
are `Optional[str]` defaulting to `None`). -/
structure ProviderConfig where
  vlmProvider : String
  vlmModel : String
  llmProvider : String
  llmModel : String
  llmTemperature : ℚ
  llmMaxTokens : Nat
  openaiApiKey : Option String
  googleApiKey : Option String
  huggingfaceApiKey : Option String
  deriving DecidableEq, Repr

/-- Outcome supplied by the outside world for one outbound OpenAI call: the
body of the corresponding `try` block either returns the response text or
raises with message `msg` (`str(e)` of the underlying exception — non-200
status, unreadable image file, timeout, ...). -/
inductive CallResult where
  | ok (text : String)
  | err (msg : String)
  deriving DecidableEq, Repr

/-- External inputs of the model stage of one run: the outcomes of the (at
most two) outbound OpenAI calls, the measured wall-clock durations, and the
outcome of the final database commit of `_process_with_models` (`none` =
commit succeeds, `some msg` = the commit raises with message `msg`). -/
structure Oracle where
  openaiVlmCall : CallResult
  openaiLlmCall : CallResult
  vlmDuration : ℚ
  llmDuration : ℚ
  finalCommit : Option String
  deriving DecidableEq, Repr

/-- Observable outcome of the provider dispatch performed by
`_process_with_vlm` / `_process_with_llm`: a `ValueError` raised before
anything else happens (missing credential or unsupported provider name —
no outbound network call is attempted), a hardcoded mock response (google
and huggingface branches — no network either), or the single outbound
OpenAI network call. -/
inductive GatewayOutcome where
  | configError (msg : String)
  | mock (text : String)
  | network (result : CallResult)
  deriving DecidableEq, Repr

/-- Whether a dispatch outcome performs an outbound network call. -/
def attemptsNetwork : GatewayOutcome → Bool
  | GatewayOutcome.network _ => true
  | _ => false

/-- Provider dispatch of `_process_with_vlm` (lines 681-721). -/
def vlmGateway (cfg : ProviderConfig) (oracle : Oracle) : GatewayOutcome :=
  if cfg.vlmProvider = "openai" then
    if optTruthy cfg.openaiApiKey = false then
      GatewayOutcome.configError "OpenAI API key not configured"
    else GatewayOutcome.network oracle.openaiVlmCall
  else if cfg.vlmProvider = "google" then
    if optTruthy cfg.googleApiKey = false then
      GatewayOutcome.configError "Google API key not configured"
    else GatewayOutcome.mock "This is a mock response from Google VLM."
  else if cfg.vlmProvider = "huggingface" then
    if optTruthy cfg.huggingfaceApiKey = false then
      GatewayOutcome.configError "HuggingFace API key not configured"
    else GatewayOutcome.mock "This is a mock response from HuggingFace VLM."
  else GatewayOutcome.configError ("Unsupported VLM provider: " ++ cfg.vlmProvider)

/-- Provider dispatch of `_process_with_llm` (lines 792-831). -/
def llmGateway (cfg : ProviderConfig) (oracle : Oracle) : GatewayOutcome :=
  if cfg.llmProvider = "openai" then
    if optTruthy cfg.openaiApiKey = false then
      GatewayOutcome.configError "OpenAI API key not configured"
    else GatewayOutcome.network oracle.openaiLlmCall
  else if cfg.llmProvider = "google" then
    if optTruthy cfg.googleApiKey = false then
      GatewayOutcome.configError "Google API key not configured"
    else GatewayOutcome.mock "This is a mock response from Google LLM."
  else if cfg.llmProvider = "huggingface" then
    if optTruthy cfg.huggingfaceApiKey = false then
      GatewayOutcome.configError "HuggingFace API key not configured"
    else GatewayOutcome.mock "This is a mock response from HuggingFace LLM."
  else GatewayOutcome.configError ("Unsupported LLM provider: " ++ cfg.llmProvider)

/-- `_process_with_vlm(image, prompt)`: on a network dispatch, the `except`
block of `_process_with_openai_vlm` re-raises every failure as
`Exception("Error processing with OpenAI VLM: " + str(e))`.  The `image`
and `prompt` arguments do not influence the dispatch. -/
def processWithVlm (cfg : ProviderConfig) (oracle : Oracle) (_prompt : String) :
    Except PyError String :=
  match vlmGateway cfg oracle with
  | GatewayOutcome.configError m => Except.error (PyError.valueError m)
  | GatewayOutcome.mock t => Except.ok t
  | GatewayOutcome.network (CallResult.ok t) => Except.ok t
  | GatewayOutcome.network (CallResult.err m) =>
      Except.error (PyError.providerError ("Error processing with OpenAI VLM: " ++ m))

/-- `_process_with_llm(prompt)`, analogously. -/
def processWithLlm (cfg : ProviderConfig) (oracle : Oracle) (_prompt : String) :
    Except PyError String :=
  match llmGateway cfg oracle with
  | GatewayOutcome.configError m => Except.error (PyError.valueError m)
  | GatewayOutcome.mock t => Except.ok t
  | GatewayOutcome.network (CallResult.ok t) => Except.ok t
  | GatewayOutcome.network (CallResult.err m) =>
      Except.error (PyError.providerError ("Error processing with OpenAI LLM: " ++ m))

/-- Shape of the outbound request built inside an OpenAI helper: target
URL, the `httpx.AsyncClient(timeout=...)` bound in seconds, and the payload
bounds. -/
structure HttpPost where
  url : String
  timeoutSeconds : ℚ
  model : String
  maxTokens : Nat
  deriving DecidableEq, Repr

/-- The request of `_process_with_openai_vlm` (lines 750-777):
`httpx.AsyncClient(timeout=60.0)`, `"max_tokens": 1000`. -/
def openaiVlmPost (cfg : ProviderConfig) : HttpPost :=
  { url := "https://api.openai.com/v1/chat/completions"
    timeoutSeconds := 60
    model := cfg.vlmModel
    maxTokens := 1000 }

/-- The request of `_process_with_openai_llm` (lines 846-863):
`httpx.AsyncClient(timeout=30.0)`, `"max_tokens": settings.LLM_MAX_TOKENS`. -/
def openaiLlmPost (cfg : ProviderConfig) : HttpPost :=
  { url := "https://api.openai.com/v1/chat/completions"
    timeoutSeconds := 30
    model := cfg.llmModel
    maxTokens := cfg.llmMaxTokens }

/-- The `ProcessingResult` ORM record (`app/models/image_processing.py`,
lines 89-139), restricted to the columns the pipeline reads or writes. -/
structure ProcessingResult where
  imageId : Nat
  status : ProcessingStatus
  mode : ProcessingMode
  customPrompt : Option String
  vlmProvider : Option String
  vlmModel : Option String
  vlmResponse : Option String
  vlmProcessingTime : Option ℚ
  llmProvider : Option String
  llmModel : Option String
  llmResponse : Option String
  llmProcessingTime : Option ℚ
  finalOutput : Option String
  promptTemplate : Option String
  confidenceScore : Option ℚ
  errorMessage : Option String
  deriving DecidableEq, Repr

/-- Prompt selection of `_process_with_models`, lines 625-629:
`if mode == ProcessingMode.CUSTOM and custom_prompt: vlm_prompt =
custom_prompt else: vlm_prompt = self.prompt_templates[mode]["vlm"]`. -/
def resolveVlmPrompt (mode : ProcessingMode) (customPrompt : Option String) :
    Except PyError String :=
  if mode = ProcessingMode.CUSTOM ∧ optTruthy customPrompt = true then
    Except.ok (customPrompt.getD "")
  else
    match promptLookup (TemplateKey.enumKey mode) with
    | some entry => Except.ok entry.vlm
    | none => Except.error (PyError.keyError (TemplateKey.enumKey mode))

/-- The rewrite stage of `_process_with_models`, lines 646-650: the second
dict access `self.prompt_templates[mode]["llm"]`, the `.format`
substitution, and the `_process_with_llm` call.  None of these three steps
mutates the record; the `llm_*` assignments happen only after all three
succeed. -/
def rewriteStage (cfg : ProviderConfig) (oracle : Oracle) (mode : ProcessingMode)
    (vlmResponse : String) : Except PyError String :=
  match promptLookup (TemplateKey.enumKey mode) with
  | none => Except.error (PyError.keyError (TemplateKey.enumKey mode))
  | some entry =>
    match pyFormat entry.llm vlmResponse with
    | Except.error e => Except.error e
    | Except.ok llmPrompt => processWithLlm cfg oracle llmPrompt

/-- The `except` block of `_process_with_models` (lines 671-674): status to
`FAILED` and `error_message` to `str(e)`, everything else untouched. -/
def markFailed (pr : ProcessingResult) (e : PyError) : ProcessingResult :=
  { pr with status := ProcessingStatus.FAILED, errorMessage := some e.str }

/-- The numerator and denominator of `9/10` are coprime. -/
theorem nine_coprime_ten : Nat.Coprime 9 10 := by norm_num

/-- The placeholder confidence score `0.9` assigned at line 666, written as
the rational `9/10` in normal form (so that the model evaluates by kernel
reduction). -/
def confidencePlaceholder : ℚ := ⟨9, 10, by norm_num, nine_coprime_ten⟩

/-- Lines 665-669: placeholder confidence score `0.9`, then status to
`COMPLETED`. -/
def markCompleted (pr : ProcessingResult) : ProcessingResult :=
  { pr with confidenceScore := some confidencePlaceholder
            status := ProcessingStatus.COMPLETED }

/-- The `try`/`except` body of `_process_with_models` (lines 623-674): the
state of the record when control reaches the final persistence block.  On
any raise the partially mutated record flows into `markFailed`. -/
def runModels (cfg : ProviderConfig) (oracle : Oracle) (pr0 : ProcessingResult)
    (customPrompt : Option String) : ProcessingResult :=
  match resolveVlmPrompt pr0.mode customPrompt with
  | Except.error e => markFailed pr0 e
  | Except.ok vlmPrompt =>
    let pr1 := { pr0 with promptTemplate := some vlmPrompt }
    match processWithVlm cfg oracle vlmPrompt with
    | Except.error e => markFailed pr1 e
    | Except.ok vlmResponse =>
      let pr2 := { pr1 with
        vlmProvider := some cfg.vlmProvider
        vlmModel := some cfg.vlmModel
        vlmResponse := some vlmResponse
        vlmProcessingTime := some oracle.vlmDuration }
      if pr0.mode ≠ ProcessingMode.CUSTOM then
        match rewriteStage cfg oracle pr0.mode vlmResponse with
        | Except.error e => markFailed pr2 e
        | Except.ok llmResponse =>
          markCompleted { pr2 with
            llmProvider := some cfg.llmProvider
            llmModel := some cfg.llmModel
            llmResponse := some llmResponse
            llmProcessingTime := some oracle.llmDuration
            finalOutput := some llmResponse }
      else
        markCompleted { pr2 with finalOutput := some vlmResponse }

/-- `_process_with_models` (lines 607-679): run the models, then commit the
record.  A failing commit raises out of the function and the final record
state is never persisted. -/
def processWithModels (cfg : ProviderConfig) (oracle : Oracle)
    (pr0 : ProcessingResult) (customPrompt : Option String) :
    Except String ProcessingResult :=
  let pr := runModels cfg oracle pr0 customPrompt
  match oracle.finalCommit with
  | none => Except.ok pr
  | some msg => Except.error msg

/-- Decidable equality for `Except`, needed to evaluate the model on
concrete inputs. -/
instance exceptDecEq {ε α : Type} [DecidableEq ε] [DecidableEq α] :
    DecidableEq (Except ε α) := fun x y =>
  match x, y with
  | Except.ok a, Except.ok b =>
    if h : a = b then isTrue (by rw [h])
    else isFalse (fun hc => h (by cases hc; rfl))
  | Except.error a, Except.error b =>
    if h : a = b then isTrue (by rw [h])
    else isFalse (fun hc => h (by cases hc; rfl))
  | Except.ok _, Except.error _ => isFalse (fun hc => Except.noConfusion hc)
  | Except.error _, Except.ok _ => isFalse (fun hc => Except.noConfusion hc)

/-- External inputs of `process_image` that precede the model stage: the
storage write (`storage_service.save_file` returns
`(filename, file_path, file_size)` or raises) and the PIL parse used by
`_get_image_dimensions`, plus the upload content type. -/
structure UploadEnv where
  saveResult : Except String (String × String × Nat)
  parsedDimensions : Option (Nat × Nat)
  contentType : Option String
  deriving DecidableEq, Repr

/-- `_get_image_dimensions` (lines 586-605): if PIL opens the bytes the
image size is returned; on any exception the `except` block logs a warning
and returns `(None, None)`. -/
def getImageDimensions (env : UploadEnv) : Option Nat × Option Nat :=
  match env.parsedDimensions with
  | some (w, h) => (some w, some h)
  | none => (none, none)

/-- The `Image` ORM record (`app/models/image_processing.py`, lines 50-86),
restricted to the columns `process_image` writes that the pipeline can
read.  The `tags`, `location` and `metadata` columns — `json.dumps`
pass-throughs never read again by the pipeline — are not modelled. -/
structure ImageRec where
  filename : String
  filePath : String
  fileSize : Nat
  mimeType : String
  width : Option Nat
  height : Option Nat
  userId : Option Nat
  imageType : ImageType
  description : Option String
  deriving DecidableEq, Repr

/-- The optional `image_params` argument (schema `ImageCreate`), restricted
to the modelled columns. -/
structure ImageParams where
  imageType : ImageType
  description : Option String
  deriving DecidableEq, Repr

/-- The `ProcessingResult(...)` constructor call of `process_image`
(lines 562-567): the record is created with
`status=ProcessingStatus.PROCESSING`, the requested mode and the caller's
custom prompt; every other column starts out unset (NULL). -/
def initialAttempt (imageId : Nat) (mode : ProcessingMode)
    (customPrompt : Option String) : ProcessingResult :=
  { imageId := imageId
    status := ProcessingStatus.PROCESSING
    mode := mode
    customPrompt := customPrompt
    vlmProvider := none
    vlmModel := none
    vlmResponse := none
    vlmProcessingTime := none
    llmProvider := none
    llmModel := none
    llmResponse := none
    llmProcessingTime := none
    finalOutput := none
    promptTemplate := none
    confidenceScore := none
    errorMessage := none }

/-- Observable result of one `process_image` invocation: the committed
image record, the persisted attempt snapshots in commit order, and either
the returned `(image, processing_result)` pair or the detail string of the
raised `HTTPException`. -/
structure RunResult where
  image : Option ImageRec
  persistedAttempts : List ProcessingResult
  returned : Except String (ImageRec × ProcessingResult)
  deriving DecidableEq, Repr

/-- `process_image` (lines 508-584).  The attempt record is constructed
with `status=ProcessingStatus.PROCESSING` and committed, then
`_process_with_models` runs and commits the final state; any exception is
converted by the outer `except` into an `HTTPException` whose detail is
`"Error processing image: " + str(e)`.  The image insert and the first
attempt insert are modelled as succeeding commits. -/
def processImage (cfg : ProviderConfig) (oracle : Oracle) (env : UploadEnv)
    (userId : Option Nat) (processingMode : ProcessingMode)
    (customPrompt : Option String) (imageParams : Option ImageParams)
    (imageId : Nat) : RunResult :=
  match env.saveResult with
  | Except.error msg =>
    { image := none
      persistedAttempts := []
      returned := Except.error ("Error processing image: " ++ msg) }
  | Except.ok (filename, filePath, fileSize) =>
    let image : ImageRec :=
      { filename := filename
        filePath := filePath
        fileSize := fileSize
        mimeType := env.contentType.getD "application/octet-stream"
        width := (getImageDimensions env).1
        height := (getImageDimensions env).2
        userId := userId
        imageType := (match imageParams with
                      | some p => p.imageType
                      | none => ImageType.OTHER)
        description := (match imageParams with
                        | some p => p.description
                        | none => none) }
    let pr0 : ProcessingResult := initialAttempt imageId processingMode customPrompt
    match processWithModels cfg oracle pr0 customPrompt with
    | Except.ok prFinal =>
      { image := some image
        persistedAttempts := [pr0, prFinal]
        returned := Except.ok (image, prFinal) }
    | Except.error msg =>
      { image := some image
        persistedAttempts := [pr0]
        returned := Except.error ("Error processing image: " ++ msg) }

/-! ## Concrete fixtures used to evaluate the model -/

/-- A configuration routing both stages to the google mock provider, with a
google credential present. -/
def cfgGoogle : ProviderConfig :=
  { vlmProvider := "google"
    vlmModel := "gemini-vlm"
    llmProvider := "google"
    llmModel := "gemini-llm"
    llmTemperature := 7 / 10
    llmMaxTokens := 1000
    openaiApiKey := none
    googleApiKey := some "gk"
    huggingfaceApiKey := none }

/-- The default configuration of `app/core/config.py` (both providers
`"openai"`, every API key absent). -/
def cfgOpenAINoKey : ProviderConfig :=
  { vlmProvider := "openai"
    vlmModel := "gpt-4-vision-preview"
    llmProvider := "openai"
    llmModel := "gpt-4-turbo"
    llmTemperature := 7 / 10
    llmMaxTokens := 1000
    openaiApiKey := none
    googleApiKey := none
    huggingfaceApiKey := none }

/-- Vision on the google mock, language on openai without a credential: the
vision stage succeeds and the rewrite stage fails before its network call. -/
def cfgVisionOkRewriteBroken : ProviderConfig :=
  { vlmProvider := "google"
    vlmModel := "gemini-vlm"
    llmProvider := "openai"
    llmModel := "gpt-4-turbo"
    llmTemperature := 7 / 10
    llmMaxTokens := 1000
    openaiApiKey := none
    googleApiKey := some "gk"
    huggingfaceApiKey := none }

/-- An oracle in which every outbound call succeeds and the final commit
goes through. -/
def oracleOk : Oracle :=
  { openaiVlmCall := CallResult.ok "vision text"
    openaiLlmCall := CallResult.ok "llm text"
    vlmDuration := 1
    llmDuration := 2
    finalCommit := none }

/-- An upload whose storage write succeeds and whose bytes PIL can parse. -/
def envOk : UploadEnv :=
  { saveResult := Except.ok ("f.jpg", "/storage/f.jpg", 123)
    parsedDimensions := some (640, 480)
    contentType := some "image/jpeg" }

/-- An upload whose storage write succeeds but whose bytes PIL cannot
parse as an image. -/
def envBadImage : UploadEnv :=
  { saveResult := Except.ok ("f.bin", "/storage/f.bin", 9)
    parsedDimensions := none
    contentType := some "image/png" }

/-- The image record committed for `envOk` by a run with `user_id=1`. -/
def imgStd : ImageRec :=
  { filename := "f.jpg"
    filePath := "/storage/f.jpg"
    fileSize := 123
    mimeType := "image/jpeg"
    width := some 640
    height := some 480
    userId := some 1
    imageType := ImageType.OTHER
    description := none }

/-- The final attempt state of a `DESCRIPTION`-mode run on `cfgGoogle` with
`oracleOk`. -/
def prDescDone : ProcessingResult :=
  markCompleted { initialAttempt 7 ProcessingMode.DESCRIPTION none with
    promptTemplate := some descriptionVlm
    vlmProvider := some "google"
    vlmModel := some "gemini-vlm"
    vlmResponse := some "This is a mock response from Google VLM."
    vlmProcessingTime := some 1
    llmProvider := some "google"
    llmModel := some "gemini-llm"
    llmResponse := some "This is a mock response from Google LLM."
    llmProcessingTime := some 2
    finalOutput := some "This is a mock response from Google LLM." }

/-! ## Helper lemmas -/

theorem markFailed_status (pr : ProcessingResult) (e : PyError) :
    (markFailed pr e).status = ProcessingStatus.FAILED := rfl

theorem markCompleted_status (pr : ProcessingResult) :
    (markCompleted pr).status = ProcessingStatus.COMPLETED := rfl

/-- The `try`/`except` of `_process_with_models` always leaves the record
in a terminal state: every exit of the `try` body goes through
`markCompleted`, every raise through `markFailed`. -/
theorem runModels_status_terminal (cfg : ProviderConfig) (oracle : Oracle)
    (pr0 : ProcessingResult) (cp : Option String) :
    (runModels cfg oracle pr0 cp).status = ProcessingStatus.COMPLETED
      ∨ (runModels cfg oracle pr0 cp).status = ProcessingStatus.FAILED := by
  unfold runModels
  split
  · exact Or.inr rfl
  · split
    · exact Or.inr rfl
    · split
      · split
        · exact Or.inr rfl
        · exact Or.inl rfl
      · exact Or.inl rfl

/-- The attempt returned by a run whose final commit succeeded is the
record left by the `try`/`except` body. -/
theorem processImage_returned_ok (cfg : ProviderConfig) (oracle : Oracle)
    (env : UploadEnv) (userId : Option Nat) (mode : ProcessingMode)
    (cp : Option String) (ip : Option ImageParams) (iid : Nat)
    (img : ImageRec) (pr : ProcessingResult)
    (h : (processImage cfg oracle env userId mode cp ip iid).returned
          = Except.ok (img, pr)) :
    pr = runModels cfg oracle (initialAttempt iid mode cp) cp := by
  unfold processImage processWithModels at h
  rcases hs : env.saveResult with msg | ⟨fn, fp, sz⟩ <;> rw [hs] at h
  · simp at h
  · rcases hc : oracle.finalCommit with _ | msg <;> rw [hc] at h <;> simp at h
    exact h.2.symm

set_option maxRecDepth 100000

/-! ## Claim C1 -/

/-- C1 (evidence that the code violates the claim): for every one of the
twelve specialized modes, the lookup `self.prompt_templates[mode]` keyed by
the enum member itself — exactly the access `_process_with_models`
performs — fails (`none`, i.e. a `KeyError`), even though a prompt pair
with non-empty vision prompt and non-empty rewrite template IS registered
in the same dict under the mode's string value.  The claim says the lookup
succeeds for all seventeen non-custom modes; it does for the five standard
ones, but the twelve specialized entries are keyed by plain strings, which
an enum member never equals. -/
theorem C1_specialized_enum_lookup_fails (m : ProcessingMode)
    (hm : m ∈ specializedModes) :
    promptLookup (TemplateKey.enumKey m) = none
      ∧ ∃ entry, promptLookup (TemplateKey.strKey m.value) = some entry
          ∧ entry.vlm ≠ "" ∧ entry.llm ≠ "" := by
  fin_cases hm <;> exact ⟨by decide, ⟨_, rfl, by decide, by decide⟩⟩

/-- Witness for C1 at the failing input named by the claim:
`CURRENCY_RECOGNITION`. -/
theorem C1_specialized_enum_lookup_fails_witness :
    ProcessingMode.CURRENCY_RECOGNITION ∈ specializedModes
      ∧ (promptLookup (TemplateKey.enumKey ProcessingMode.CURRENCY_RECOGNITION) = none
        ∧ ∃ entry,
            promptLookup (TemplateKey.strKey ProcessingMode.CURRENCY_RECOGNITION.value)
              = some entry
            ∧ entry.vlm ≠ "" ∧ entry.llm ≠ "") :=
  ⟨by decide,
   C1_specialized_enum_lookup_fails ProcessingMode.CURRENCY_RECOGNITION (by decide)⟩

/-! ## Claim C2 -/

/-- C2: whenever the final persistence write succeeds (so `process_image`
returns instead of raising), the returned attempt is in a terminal state —
`COMPLETED` or `FAILED`, never `PENDING` or `PROCESSING` — regardless of
how prompt resolution, the vision call or the rewrite call fared. -/
theorem C2_returned_attempt_terminal (cfg : ProviderConfig) (oracle : Oracle)
    (env : UploadEnv) (userId : Option Nat) (mode : ProcessingMode)
    (cp : Option String) (ip : Option ImageParams) (iid : Nat)
    (img : ImageRec) (pr : ProcessingResult)
    (h : (processImage cfg oracle env userId mode cp ip iid).returned
          = Except.ok (img, pr)) :
    pr.status = ProcessingStatus.COMPLETED
      ∨ pr.status = ProcessingStatus.FAILED := by
  rw [processImage_returned_ok cfg oracle env userId mode cp ip iid img pr h]
  exact runModels_status_terminal cfg oracle (initialAttempt iid mode cp) cp

/-- Witness for C2: a concrete successful `DESCRIPTION`-mode run on the
google mock provider. -/
theorem C2_returned_attempt_terminal_witness :
    (processImage cfgGoogle oracleOk envOk (some 1) ProcessingMode.DESCRIPTION
        none none 7).returned = Except.ok (imgStd, prDescDone)
      ∧ (prDescDone.status = ProcessingStatus.COMPLETED
        ∨ prDescDone.status = ProcessingStatus.FAILED) :=
  ⟨by decide,
   C2_returned_attempt_terminal cfgGoogle oracleOk envOk (some 1)
     ProcessingMode.DESCRIPTION none none 7 imgStd prDescDone (by decide)⟩

/-! ## Claim C3 -/

/-- C3 counterexample: a concrete successful run (google provider,
`DESCRIPTION` mode) in which no persisted snapshot of the attempt ever has
status `PENDING` — the record is created and first committed already in
status `PROCESSING`, so no observable `PENDING` state exists, contrary to
the claim. -/
theorem C3_counterexample :
    (processImage cfgGoogle oracleOk envOk (some 1) ProcessingMode.DESCRIPTION
        none none 7).persistedAttempts.length = 2
      ∧ ((processImage cfgGoogle oracleOk envOk (some 1)
          ProcessingMode.DESCRIPTION none none 7).persistedAttempts.all
        (fun pr => pr.status != ProcessingStatus.PENDING)) = true :=
  ⟨by decide, by decide⟩

/-- C3 amended: every run that gets past the storage save creates and
first persists the attempt directly in status `PROCESSING` (the
`ProcessingResult(...)` constructor call passes
`status=ProcessingStatus.PROCESSING`); no `PENDING` snapshot is ever
persisted. -/
theorem C3_amended_first_commit_is_processing (cfg : ProviderConfig)
    (oracle : Oracle) (env : UploadEnv) (userId : Option Nat)
    (mode : ProcessingMode) (cp : Option String) (ip : Option ImageParams)
    (iid : Nat) (fn fp : String) (sz : Nat)
    (hsave : env.saveResult = Except.ok (fn, fp, sz)) :
    ∃ rest, (processImage cfg oracle env userId mode cp ip iid).persistedAttempts
        = initialAttempt iid mode cp :: rest
      ∧ (initialAttempt iid mode cp).status = ProcessingStatus.PROCESSING
      ∧ ∀ pr ∈ (processImage cfg oracle env userId mode cp ip iid).persistedAttempts,
          pr.status ≠ ProcessingStatus.PENDING := by
  unfold processImage processWithModels
  rw [hsave]
  rcases hc : oracle.finalCommit with _ | msg
  · refine ⟨[runModels cfg oracle (initialAttempt iid mode cp) cp], by simp, rfl, ?_⟩
    intro pr hpr
    simp only [List.mem_cons, List.mem_singleton, List.not_mem_nil] at hpr
    rcases hpr with h | h | h
    · subst h; simp [initialAttempt]
    · subst h
      rcases runModels_status_terminal cfg oracle (initialAttempt iid mode cp) cp
        with h2 | h2 <;> simp [h2]
    · exact absurd h (by simp)
  · refine ⟨[], by simp, rfl, ?_⟩
    intro pr hpr
    simp only [List.mem_singleton] at hpr
    subst hpr
    simp [initialAttempt]

/-- Witness for C3's amended statement: the same concrete run as the
counterexample. -/
theorem C3_amended_witness :
    envOk.saveResult = Except.ok ("f.jpg", "/storage/f.jpg", 123)
      ∧ ∃ rest,
        (processImage cfgGoogle oracleOk envOk (some 1)
            ProcessingMode.DESCRIPTION none none 7).persistedAttempts
          = initialAttempt 7 ProcessingMode.DESCRIPTION none :: rest
        ∧ (initialAttempt 7 ProcessingMode.DESCRIPTION none).status
            = ProcessingStatus.PROCESSING
        ∧ ∀ pr ∈ (processImage cfgGoogle oracleOk envOk (some 1)
            ProcessingMode.DESCRIPTION none none 7).persistedAttempts,
            pr.status ≠ ProcessingStatus.PENDING :=
  ⟨rfl,
   C3_amended_first_commit_is_processing cfgGoogle oracleOk envOk (some 1)
     ProcessingMode.DESCRIPTION none none 7 "f.jpg" "/storage/f.jpg" 123 rfl⟩

/-! ## Claim C4 -/

/-- The attempt state left by a custom-mode run without a custom prompt:
the registry lookup `self.prompt_templates[ProcessingMode.CUSTOM]` raises
`KeyError` (the dict has no entry for `CUSTOM`), which the `except` block
converts into a `FAILED` record. -/
def prCustomNoPrompt : ProcessingResult :=
  markFailed (initialAttempt 7 ProcessingMode.CUSTOM none)
    (PyError.keyError (TemplateKey.enumKey ProcessingMode.CUSTOM))

/-- C4 counterexample: with mode `CUSTOM` and no custom prompt, the run
does NOT surface an `InvalidRequest`-style exception to the caller and DOES
proceed to a prompt lookup: it returns normally (`Except.ok`), with the
attempt marked `FAILED` and `error_message` set to the `KeyError` rendering
of the failed registry lookup for `CUSTOM`; the attempt record is mutated
and re-persisted beyond the initial snapshot.  No model call happens
(`vlm_response` stays unset), so only the exception-surfacing part of the
claim is what the code violates. -/
theorem C4_counterexample :
    (processImage cfgGoogle oracleOk envOk (some 1) ProcessingMode.CUSTOM
        none none 7).returned = Except.ok (imgStd, prCustomNoPrompt)
      ∧ prCustomNoPrompt.status = ProcessingStatus.FAILED
      ∧ prCustomNoPrompt.errorMessage
          = some ("<ProcessingMode.CUSTOM: " ++ sq ++ "custom" ++ sq ++ ">")
      ∧ prCustomNoPrompt.vlmResponse = none
      ∧ prCustomNoPrompt.llmResponse = none
      ∧ (processImage cfgGoogle oracleOk envOk (some 1) ProcessingMode.CUSTOM
          none none 7).persistedAttempts.length = 2 :=
  ⟨by decide, rfl, by decide, rfl, rfl, by decide⟩

/-- C4 amended: when the mode is `CUSTOM` and the caller supplies no
custom prompt (`None` or empty), no model is invoked and no provenance is
recorded, but instead of raising `InvalidRequest` before any lookup, the
code falls through to the registry access `self.prompt_templates[CUSTOM]`,
whose `KeyError` is caught by the orchestrator: the attempt is returned
normally with status `FAILED` and `error_message` set to the `KeyError`
description. -/
theorem C4_amended_custom_without_prompt (cfg : ProviderConfig)
    (oracle : Oracle) (env : UploadEnv) (userId : Option Nat)
    (cp : Option String) (ip : Option ImageParams) (iid : Nat)
    (img : ImageRec) (pr : ProcessingResult)
    (hcp : optTruthy cp = false)
    (hret : (processImage cfg oracle env userId ProcessingMode.CUSTOM cp ip
        iid).returned = Except.ok (img, pr)) :
    pr = markFailed (initialAttempt iid ProcessingMode.CUSTOM cp)
          (PyError.keyError (TemplateKey.enumKey ProcessingMode.CUSTOM))
      ∧ pr.status = ProcessingStatus.FAILED
      ∧ pr.errorMessage
          = some (PyError.keyError (TemplateKey.enumKey ProcessingMode.CUSTOM)).str
      ∧ pr.vlmProvider = none ∧ pr.vlmResponse = none
      ∧ pr.llmResponse = none ∧ pr.finalOutput = none := by
  have h := processImage_returned_ok cfg oracle env userId
    ProcessingMode.CUSTOM cp ip iid img pr hret
  have hres : resolveVlmPrompt ProcessingMode.CUSTOM cp
      = Except.error (PyError.keyError (TemplateKey.enumKey ProcessingMode.CUSTOM)) := by
    unfold resolveVlmPrompt
    rw [if_neg]
    · rw [show promptLookup (TemplateKey.enumKey ProcessingMode.CUSTOM) = none
        from by decide]
    · intro hand
      rw [hcp] at hand
      exact absurd hand.2 (by simp)
  have hpr : pr = markFailed (initialAttempt iid ProcessingMode.CUSTOM cp)
      (PyError.keyError (TemplateKey.enumKey ProcessingMode.CUSTOM)) := by
    rw [h]
    simp only [runModels, initialAttempt, hres]
  exact ⟨hpr, by rw [hpr]; rfl, by rw [hpr]; rfl, by rw [hpr]; rfl,
    by rw [hpr]; rfl, by rw [hpr]; rfl, by rw [hpr]; rfl⟩

/-- Witness for C4's amended statement at the concrete counterexample
input. -/
theorem C4_amended_witness :
    optTruthy (none : Option String) = false
      ∧ (processImage cfgGoogle oracleOk envOk (some 1) ProcessingMode.CUSTOM
          none none 7).returned = Except.ok (imgStd, prCustomNoPrompt)
      ∧ prCustomNoPrompt
          = markFailed (initialAttempt 7 ProcessingMode.CUSTOM none)
              (PyError.keyError (TemplateKey.enumKey ProcessingMode.CUSTOM)) :=
  ⟨rfl, by decide,
   (C4_amended_custom_without_prompt cfgGoogle oracleOk envOk (some 1) none
     none 7 imgStd prCustomNoPrompt rfl (by decide)).1⟩

/-! ## Claims C5 and C6 -/

/-- The vision gateway dispatch never reads the outcome of the text-model
network call. -/
theorem vlmGateway_ignores_llmCall (cfg : ProviderConfig) (oracle : Oracle)
    (x : CallResult) :
    vlmGateway cfg { oracle with openaiLlmCall := x } = vlmGateway cfg oracle := rfl

/-- `_process_with_vlm` never reads the outcome of the text-model network
call. -/
theorem processWithVlm_ignores_llmCall (cfg : ProviderConfig) (oracle : Oracle)
    (x : CallResult) (p : String) :
    processWithVlm cfg { oracle with openaiLlmCall := x } p
      = processWithVlm cfg oracle p := rfl

/-- C5: in every run where prompt resolution and the vision call succeed
but the rewrite stage (second registry access, `.format` substitution, or
the text-model call) fails, the returned record keeps the vision-stage
provenance recorded before the rewrite was attempted (`vlm_provider`,
`vlm_model`, `vlm_response`, `vlm_processing_time`), has status `FAILED`
with `error_message` set to the failure's description, and leaves
`llm_response` unset. -/
theorem C5_vision_provenance_kept_on_rewrite_failure (cfg : ProviderConfig)
    (oracle : Oracle) (pr0 : ProcessingResult) (cp : Option String)
    (p v : String) (e : PyError)
    (hmode : pr0.mode ≠ ProcessingMode.CUSTOM)
    (hres : resolveVlmPrompt pr0.mode cp = Except.ok p)
    (hvlm : processWithVlm cfg oracle p = Except.ok v)
    (hrew : rewriteStage cfg oracle pr0.mode v = Except.error e)
    (hr : pr0.llmResponse = none) :
    (runModels cfg oracle pr0 cp).status = ProcessingStatus.FAILED
      ∧ (runModels cfg oracle pr0 cp).errorMessage = some e.str
      ∧ (runModels cfg oracle pr0 cp).vlmProvider = some cfg.vlmProvider
      ∧ (runModels cfg oracle pr0 cp).vlmModel = some cfg.vlmModel
      ∧ (runModels cfg oracle pr0 cp).vlmResponse = some v
      ∧ (runModels cfg oracle pr0 cp).vlmProcessingTime = some oracle.vlmDuration
      ∧ (runModels cfg oracle pr0 cp).llmResponse = none := by
  have hrun : runModels cfg oracle pr0 cp
      = markFailed { pr0 with
          promptTemplate := some p
          vlmProvider := some cfg.vlmProvider
          vlmModel := some cfg.vlmModel
          vlmResponse := some v
          vlmProcessingTime := some oracle.vlmDuration } e := by
    simp only [runModels, hres, hvlm, hrew, if_pos hmode]
  rw [hrun]
  exact ⟨rfl, rfl, rfl, rfl, rfl, rfl, by simp [markFailed, hr]⟩

/-- Witness for C5: vision via the google mock succeeds, the rewrite fails
before its network call because the selected openai language provider has
no credential. -/
theorem C5_witness :
    (initialAttempt 7 ProcessingMode.DESCRIPTION none).mode ≠ ProcessingMode.CUSTOM
      ∧ resolveVlmPrompt (initialAttempt 7 ProcessingMode.DESCRIPTION none).mode none
          = Except.ok descriptionVlm
      ∧ processWithVlm cfgVisionOkRewriteBroken oracleOk descriptionVlm
          = Except.ok "This is a mock response from Google VLM."
      ∧ rewriteStage cfgVisionOkRewriteBroken oracleOk
            (initialAttempt 7 ProcessingMode.DESCRIPTION none).mode
            "This is a mock response from Google VLM."
          = Except.error (PyError.valueError "OpenAI API key not configured")
      ∧ (runModels cfgVisionOkRewriteBroken oracleOk
            (initialAttempt 7 ProcessingMode.DESCRIPTION none) none).status
          = ProcessingStatus.FAILED
      ∧ (runModels cfgVisionOkRewriteBroken oracleOk
            (initialAttempt 7 ProcessingMode.DESCRIPTION none) none).vlmResponse
          = some "This is a mock response from Google VLM."
      ∧ (runModels cfgVisionOkRewriteBroken oracleOk
            (initialAttempt 7 ProcessingMode.DESCRIPTION none) none).llmResponse
          = none :=
  have h5 := C5_vision_provenance_kept_on_rewrite_failure
    cfgVisionOkRewriteBroken oracleOk
    (initialAttempt 7 ProcessingMode.DESCRIPTION none) none
    descriptionVlm "This is a mock response from Google VLM."
    (PyError.valueError "OpenAI API key not configured")
    (by decide) (by decide) (by decide) (by decide) rfl
  ⟨by decide, by decide, by decide, by decide, h5.1, h5.2.2.2.2.1, h5.2.2.2.2.2.2⟩

/-- C6: a custom-mode run with a caller-supplied custom prompt and a
successful vision call completes with `final_output` equal to the vision
response, leaves every language-stage provenance field unset, and its
result does not depend on the text-model call at all (the rewrite stage is
never invoked). -/
theorem C6_custom_mode_skips_rewrite (cfg : ProviderConfig) (oracle : Oracle)
    (pr0 : ProcessingResult) (cp : Option String) (v : String)
    (hmode : pr0.mode = ProcessingMode.CUSTOM)
    (hcp : optTruthy cp = true)
    (hvlm : processWithVlm cfg oracle (cp.getD "") = Except.ok v)
    (hp : pr0.llmProvider = none) (hm : pr0.llmModel = none)
    (hr : pr0.llmResponse = none) (ht : pr0.llmProcessingTime = none) :
    (runModels cfg oracle pr0 cp).finalOutput = some v
      ∧ (runModels cfg oracle pr0 cp).vlmResponse = some v
      ∧ (runModels cfg oracle pr0 cp).status = ProcessingStatus.COMPLETED
      ∧ (runModels cfg oracle pr0 cp).llmProvider = none
      ∧ (runModels cfg oracle pr0 cp).llmModel = none
      ∧ (runModels cfg oracle pr0 cp).llmResponse = none
      ∧ (runModels cfg oracle pr0 cp).llmProcessingTime = none
      ∧ ∀ llmCall, runModels cfg { oracle with openaiLlmCall := llmCall } pr0 cp
          = runModels cfg oracle pr0 cp := by
  have hres : resolveVlmPrompt ProcessingMode.CUSTOM cp = Except.ok (cp.getD "") := by
    unfold resolveVlmPrompt
    rw [if_pos ⟨rfl, hcp⟩]
  have hrun : ∀ o : Oracle, processWithVlm cfg o (cp.getD "") = Except.ok v →
      runModels cfg o pr0 cp
        = markCompleted { pr0 with
            promptTemplate := some (cp.getD "")
            vlmProvider := some cfg.vlmProvider
            vlmModel := some cfg.vlmModel
            vlmResponse := some v
            vlmProcessingTime := some o.vlmDuration
            finalOutput := some v } := by
    intro o hvlmo
    simp only [runModels, hmode, hres, hvlmo]
    simp
  rw [hrun oracle hvlm]
  refine ⟨rfl, rfl, rfl, by simp [markCompleted, hp], by simp [markCompleted, hm],
    by simp [markCompleted, hr], by simp [markCompleted, ht], ?_⟩
  intro llmCall
  exact hrun { oracle with openaiLlmCall := llmCall }
    (by rw [processWithVlm_ignores_llmCall]; exact hvlm)

/-- Witness for C6: google mock vision with a concrete custom prompt. -/
theorem C6_witness :
    (initialAttempt 7 ProcessingMode.CUSTOM (some "describe the sign")).mode
        = ProcessingMode.CUSTOM
      ∧ optTruthy (some "describe the sign") = true
      ∧ processWithVlm cfgGoogle oracleOk ((some "describe the sign").getD "")
          = Except.ok "This is a mock response from Google VLM."
      ∧ (runModels cfgGoogle oracleOk
            (initialAttempt 7 ProcessingMode.CUSTOM (some "describe the sign"))
            (some "describe the sign")).finalOutput
          = some "This is a mock response from Google VLM."
      ∧ (runModels cfgGoogle oracleOk
            (initialAttempt 7 ProcessingMode.CUSTOM (some "describe the sign"))
            (some "describe the sign")).llmResponse = none :=
  have h6 := C6_custom_mode_skips_rewrite cfgGoogle oracleOk
    (initialAttempt 7 ProcessingMode.CUSTOM (some "describe the sign"))
    (some "describe the sign") "This is a mock response from Google VLM."
    rfl rfl (by decide) rfl rfl rfl rfl
  ⟨rfl, rfl, by decide, h6.1, h6.2.2.2.2.2.1⟩

/-! ## Claim C8 -/

/-- The credential that the provider dispatch checks for a given provider
name, following the branch structure shared by `_process_with_vlm` and
`_process_with_llm` (an unsupported name checks no credential). -/
def credentialFor (cfg : ProviderConfig) (provider : String) : Option String :=
  if provider = "openai" then cfg.openaiApiKey
  else if provider = "google" then cfg.googleApiKey
  else if provider = "huggingface" then cfg.huggingfaceApiKey
  else none

/-- The provider names the dispatch supports. -/
def supportedProviders : List String := ["openai", "google", "huggingface"]

/-- A vision dispatch whose selected provider has no truthy credential
raises a `ValueError` and attempts no network call. -/
theorem vlmGateway_configError_of_unconfigured (cfg : ProviderConfig)
    (oracle : Oracle)
    (hk : optTruthy (credentialFor cfg cfg.vlmProvider) = false) :
    (∃ m, vlmGateway cfg oracle = GatewayOutcome.configError m)
      ∧ attemptsNetwork (vlmGateway cfg oracle) = false := by
  unfold vlmGateway
  unfold credentialFor at hk
  by_cases h1 : cfg.vlmProvider = "openai"
  · rw [if_pos h1] at hk
    rw [if_pos h1, if_pos hk]
    exact ⟨⟨_, rfl⟩, rfl⟩
  · rw [if_neg h1] at hk
    rw [if_neg h1]
    by_cases h2 : cfg.vlmProvider = "google"
    · rw [if_pos h2] at hk
      rw [if_pos h2, if_pos hk]
      exact ⟨⟨_, rfl⟩, rfl⟩
    · rw [if_neg h2] at hk
      rw [if_neg h2]
      by_cases h3 : cfg.vlmProvider = "huggingface"
      · rw [if_pos h3] at hk
        rw [if_pos h3, if_pos hk]
        exact ⟨⟨_, rfl⟩, rfl⟩
      · rw [if_neg h3]
        exact ⟨⟨_, rfl⟩, rfl⟩

/-- A text dispatch whose selected provider has no truthy credential
raises a `ValueError` and attempts no network call. -/
theorem llmGateway_configError_of_unconfigured (cfg : ProviderConfig)
    (oracle : Oracle)
    (hk : optTruthy (credentialFor cfg cfg.llmProvider) = false) :
    (∃ m, llmGateway cfg oracle = GatewayOutcome.configError m)
      ∧ attemptsNetwork (llmGateway cfg oracle) = false := by
  unfold llmGateway
  unfold credentialFor at hk
  by_cases h1 : cfg.llmProvider = "openai"
  · rw [if_pos h1] at hk
    rw [if_pos h1, if_pos hk]
    exact ⟨⟨_, rfl⟩, rfl⟩
  · rw [if_neg h1] at hk
    rw [if_neg h1]
    by_cases h2 : cfg.llmProvider = "google"
    · rw [if_pos h2] at hk
      rw [if_pos h2, if_pos hk]
      exact ⟨⟨_, rfl⟩, rfl⟩
    · rw [if_neg h2] at hk
      rw [if_neg h2]
      by_cases h3 : cfg.llmProvider = "huggingface"
      · rw [if_pos h3] at hk
        rw [if_pos h3, if_pos hk]
        exact ⟨⟨_, rfl⟩, rfl⟩
      · rw [if_neg h3]
        exact ⟨⟨_, rfl⟩, rfl⟩

/-- C8: for whatever provider is selected for each stage, a missing or
empty credential makes the corresponding dispatch raise a configuration
`ValueError` with no network call attempted; a provider name outside the
supported set likewise raises before any network call. -/
theorem C8_missing_credentials_fail_fast (cfg : ProviderConfig)
    (oracle : Oracle) :
    (optTruthy (credentialFor cfg cfg.vlmProvider) = false →
      (∃ m, vlmGateway cfg oracle = GatewayOutcome.configError m)
        ∧ attemptsNetwork (vlmGateway cfg oracle) = false)
    ∧ (optTruthy (credentialFor cfg cfg.llmProvider) = false →
      (∃ m, llmGateway cfg oracle = GatewayOutcome.configError m)
        ∧ attemptsNetwork (llmGateway cfg oracle) = false)
    ∧ (cfg.vlmProvider ∉ supportedProviders →
      (∃ m, vlmGateway cfg oracle = GatewayOutcome.configError m)
        ∧ attemptsNetwork (vlmGateway cfg oracle) = false)
    ∧ (cfg.llmProvider ∉ supportedProviders →
      (∃ m, llmGateway cfg oracle = GatewayOutcome.configError m)
        ∧ attemptsNetwork (llmGateway cfg oracle) = false) := by
  refine ⟨vlmGateway_configError_of_unconfigured cfg oracle,
    llmGateway_configError_of_unconfigured cfg oracle, ?_, ?_⟩
  · intro h
    simp only [supportedProviders, List.mem_cons, List.not_mem_nil, or_false,
      not_or] at h
    obtain ⟨h1, h2, h3⟩ := h
    unfold vlmGateway
    rw [if_neg h1, if_neg h2, if_neg h3]
    exact ⟨⟨_, rfl⟩, rfl⟩
  · intro h
    simp only [supportedProviders, List.mem_cons, List.not_mem_nil, or_false,
      not_or] at h
    obtain ⟨h1, h2, h3⟩ := h
    unfold llmGateway
    rw [if_neg h1, if_neg h2, if_neg h3]
    exact ⟨⟨_, rfl⟩, rfl⟩

/-- Witness for C8: the default configuration (openai selected for both
stages, no key configured). -/
theorem C8_missing_credentials_fail_fast_witness :
    optTruthy (credentialFor cfgOpenAINoKey cfgOpenAINoKey.vlmProvider) = false
      ∧ (∃ m, vlmGateway cfgOpenAINoKey oracleOk = GatewayOutcome.configError m)
      ∧ attemptsNetwork (vlmGateway cfgOpenAINoKey oracleOk) = false
      ∧ (∃ m, llmGateway cfgOpenAINoKey oracleOk = GatewayOutcome.configError m)
      ∧ attemptsNetwork (llmGateway cfgOpenAINoKey oracleOk) = false :=
  have h := C8_missing_credentials_fail_fast cfgOpenAINoKey oracleOk
  ⟨rfl, (h.1 rfl).1, (h.1 rfl).2, (h.2.1 rfl).1, (h.2.1 rfl).2⟩

/-! ## Claim C10 -/

/-- C10: when the uploaded bytes cannot be parsed as an image, dimension
extraction returns `(None, None)` instead of aborting, the image record is
committed with null width and height, and the model stage proceeds exactly
as for a parseable upload: the persisted attempt snapshots and the returned
attempt are identical to those of the same run with any parseable
dimensions. -/
theorem C10_unparseable_image_proceeds (cfg : ProviderConfig)
    (oracle : Oracle) (env : UploadEnv) (userId : Option Nat)
    (mode : ProcessingMode) (cp : Option String) (ip : Option ImageParams)
    (iid : Nat) (fn fp : String) (sz : Nat)
    (hsave : env.saveResult = Except.ok (fn, fp, sz))
    (hdim : env.parsedDimensions = none) :
    getImageDimensions env = (none, none)
      ∧ Option.map ImageRec.width
          (processImage cfg oracle env userId mode cp ip iid).image = some none
      ∧ Option.map ImageRec.height
          (processImage cfg oracle env userId mode cp ip iid).image = some none
      ∧ ∀ w h : Nat,
          (processImage cfg oracle { env with parsedDimensions := some (w, h) }
              userId mode cp ip iid).persistedAttempts
            = (processImage cfg oracle env userId mode cp ip iid).persistedAttempts
          ∧ Except.map Prod.snd (processImage cfg oracle
                { env with parsedDimensions := some (w, h) } userId mode cp ip
                iid).returned
            = Except.map Prod.snd
                (processImage cfg oracle env userId mode cp ip iid).returned := by
  refine ⟨by simp [getImageDimensions, hdim], ?_, ?_, ?_⟩
  · unfold processImage processWithModels
    rw [hsave]
    rcases hc : oracle.finalCommit with _ | m <;>
      simp [hc, getImageDimensions, hdim]
  · unfold processImage processWithModels
    rw [hsave]
    rcases hc : oracle.finalCommit with _ | m <;>
      simp [hc, getImageDimensions, hdim]
  · intro w h
    unfold processImage processWithModels
    rw [hsave]
    rcases hc : oracle.finalCommit with _ | m <;> simp [hc, Except.map]

/-- Witness for C10: a concrete upload whose bytes PIL cannot parse. -/
theorem C10_unparseable_image_proceeds_witness :
    envBadImage.saveResult = Except.ok ("f.bin", "/storage/f.bin", 9)
      ∧ envBadImage.parsedDimensions = none
      ∧ getImageDimensions envBadImage = (none, none)
      ∧ Option.map ImageRec.width (processImage cfgGoogle oracleOk envBadImage
          (some 1) ProcessingMode.DESCRIPTION none none 7).image = some none :=
  have h := C10_unparseable_image_proceeds cfgGoogle oracleOk envBadImage
    (some 1) ProcessingMode.DESCRIPTION none none 7 "f.bin" "/storage/f.bin" 9
    rfl rfl
  ⟨rfl, rfl, h.1, h.2.1⟩

/-! ## Claim C9 -/

/-- C9: both OpenAI helper calls are bounded by a per-call client timeout,
and the vision call's bound (60 seconds) strictly exceeds the text call's
bound (30 seconds). -/
theorem C9_vision_timeout_exceeds_text_timeout (cfg : ProviderConfig) :
    (openaiLlmPost cfg).timeoutSeconds < (openaiVlmPost cfg).timeoutSeconds
      ∧ (openaiVlmPost cfg).timeoutSeconds = 60
      ∧ (openaiLlmPost cfg).timeoutSeconds = 30 :=
  ⟨by norm_num [openaiVlmPost, openaiLlmPost], rfl, rfl⟩

/-! ## Claim C7 -/

/-- A list of characters containing neither brace. -/
def BraceFree (l : List Char) : Prop :=
  ∀ c ∈ l, c ≠ openBrace ∧ c ≠ closeBrace

instance braceFreeDec (l : List Char) : Decidable (BraceFree l) :=
  inferInstanceAs (Decidable (∀ c ∈ l, c ≠ openBrace ∧ c ≠ closeBrace))

/-- Abstract shape of a rewrite template whose braces occur only as
`{vlm_description}` replacement fields: alternating brace-free text chunks
and fields.  This captures the spec's notion of a "template with a
`{vlm_description}` slot". -/
inductive TemplateSeg where
  | text (s : List Char)
  | field
  deriving DecidableEq, Repr

/-- The concrete character sequence of a segment list. -/
def renderSegs : List TemplateSeg → List Char
  | [] => []
  | TemplateSeg.text s :: rest => s ++ renderSegs rest
  | TemplateSeg.field :: rest =>
      openBrace :: (vlmFieldName ++ closeBrace :: renderSegs rest)

/-- The expected substitution result: each field replaced by `v`. -/
def substSegs (v : List Char) : List TemplateSeg → List Char
  | [] => []
  | TemplateSeg.text s :: rest => s ++ substSegs v rest
  | TemplateSeg.field :: rest => v ++ substSegs v rest

/-- Every text chunk of the segment list is brace-free. -/
def SegsWellFormed : List TemplateSeg → Prop
  | [] => True
  | TemplateSeg.text s :: rest => BraceFree s ∧ SegsWellFormed rest
  | TemplateSeg.field :: rest => SegsWellFormed rest

instance segsWellFormedDec : (segs : List TemplateSeg) → Decidable (SegsWellFormed segs)
  | [] => isTrue trivial
  | TemplateSeg.text s :: rest =>
      have := segsWellFormedDec rest
      inferInstanceAs (Decidable (BraceFree s ∧ SegsWellFormed rest))
  | TemplateSeg.field :: rest => segsWellFormedDec rest

/-- Number of `{vlm_description}` fields in the segment list. -/
def fieldCount : List TemplateSeg → Nat
  | [] => 0
  | TemplateSeg.text _ :: rest => fieldCount rest
  | TemplateSeg.field :: rest => fieldCount rest + 1

/-- Scanning a brace-free chunk copies it verbatim and continues. -/
theorem formatScan_text (v s t : List Char) (hs : BraceFree s) :
    formatScan v ScanState.normal (s ++ t)
      = mapOut (fun out => s ++ out) (formatScan v ScanState.normal t) := by
  induction s with
  | nil =>
    cases h : formatScan v ScanState.normal t <;> simp [mapOut, h]
  | cons c cs ih =>
    have hc := hs c (List.mem_cons_self c cs)
    have hcs : BraceFree cs := fun x hx => hs x (List.mem_cons_of_mem c hx)
    simp only [List.cons_append, formatScan, List.append_eq]
    rw [if_neg hc.1, if_neg hc.2, ih hcs]
    cases h : formatScan v ScanState.normal t <;> simp [mapOut, h]

/-- Consuming a brace-free field body up to the closing brace yields the
accumulated field name check. -/
theorem formatScan_inField (v t : List Char) (pre : List Char)
    (acc : List Char) (hpre : BraceFree pre) :
    formatScan v (ScanState.inField acc) (pre ++ closeBrace :: t)
      = if acc.reverse ++ pre = vlmFieldName then
          mapOut (fun out => v ++ out) (formatScan v ScanState.normal t)
        else Except.error (PyError.formatKeyError (String.mk (acc.reverse ++ pre))) := by
  induction pre generalizing acc with
  | nil =>
    simp [formatScan]
  | cons c cs ih =>
    have hc := hpre c (List.mem_cons_self c cs)
    have hcs : BraceFree cs := fun x hx => hpre x (List.mem_cons_of_mem c hx)
    simp only [List.cons_append, formatScan, List.append_eq]
    rw [if_neg hc.2, if_neg hc.1, ih (c :: acc) hcs]
    have hfield : (c :: acc).reverse ++ cs = acc.reverse ++ (c :: cs) := by
      simp
    rw [hfield]

/-- One scanner step: an opening brace enters the `sawOpen` state. -/
theorem formatScan_normal_open (v rest : List Char) :
    formatScan v ScanState.normal (openBrace :: rest)
      = formatScan v ScanState.sawOpen rest := by
  rw [formatScan, if_pos rfl]

/-- One scanner step: a non-brace character after an opening brace starts
a field. -/
theorem formatScan_sawOpen_step (v rest : List Char) (c : Char)
    (h1 : c ≠ openBrace) (h2 : c ≠ closeBrace) :
    formatScan v ScanState.sawOpen (c :: rest)
      = formatScan v (ScanState.inField [c]) rest := by
  rw [formatScan, if_neg h1, if_neg h2]

/-- Scanning one `{vlm_description}` field substitutes `v` and continues. -/
theorem formatScan_field (v t : List Char) :
    formatScan v ScanState.normal (openBrace :: (vlmFieldName ++ closeBrace :: t))
      = mapOut (fun out => v ++ out) (formatScan v ScanState.normal t) := by
  have hv : vlmFieldName = 'v' :: "lm_description".toList := by decide
  rw [formatScan_normal_open, hv, List.cons_append]
  rw [formatScan_sawOpen_step v _ 'v' (by decide) (by decide)]
  rw [formatScan_inField v t "lm_description".toList ['v'] (by decide)]
  rw [if_pos (show List.reverse ['v'] ++ "lm_description".toList = vlmFieldName
    from by decide)]

/-- Scanning a well-formed segment rendering succeeds and produces the
substitution. -/
theorem formatScan_render (v : List Char) (segs : List TemplateSeg)
    (hwf : SegsWellFormed segs) :
    formatScan v ScanState.normal (renderSegs segs)
      = Except.ok (substSegs v segs) := by
  induction segs with
  | nil => rfl
  | cons seg rest ih =>
    cases seg with
    | text s =>
      have hs : BraceFree s := hwf.1
      rw [show renderSegs (TemplateSeg.text s :: rest) = s ++ renderSegs rest from rfl]
      rw [formatScan_text v s (renderSegs rest) hs, ih hwf.2]
      rfl
    | field =>
      rw [show renderSegs (TemplateSeg.field :: rest)
            = openBrace :: (vlmFieldName ++ closeBrace :: renderSegs rest) from rfl]
      rw [formatScan_field v (renderSegs rest), ih hwf]
      rfl

/-- A substitution with at least one field contains the replacement text
as an infix. -/
theorem substSegs_infix (v : List Char) (segs : List TemplateSeg)
    (h : 1 ≤ fieldCount segs) : v <:+: substSegs v segs := by
  induction segs with
  | nil => exact absurd h (by simp [fieldCount])
  | cons seg rest ih =>
    cases seg with
    | text s =>
      obtain ⟨p, q, hpq⟩ := ih (by simpa [fieldCount] using h)
      refine ⟨s ++ p, q, ?_⟩
      show s ++ p ++ v ++ q = s ++ substSegs v rest
      rw [← hpq]
      simp [List.append_assoc]
    | field =>
      refine ⟨[], substSegs v rest, ?_⟩
      show [] ++ v ++ substSegs v rest = v ++ substSegs v rest
      simp

/-- Substituting brace-free text into a well-formed template yields a
brace-free result. -/
theorem substSegs_braceFree (v : List Char) (segs : List TemplateSeg)
    (hwf : SegsWellFormed segs) (hv : BraceFree v) :
    BraceFree (substSegs v segs) := by
  induction segs with
  | nil => intro c hc; exact absurd hc (by simp [substSegs])
  | cons seg rest ih =>
    cases seg with
    | text s =>
      intro c hc
      rcases List.mem_append.mp (by simpa [substSegs] using hc) with h | h
      · exact hwf.1 c h
      · exact ih hwf.2 c h
    | field =>
      intro c hc
      rcases List.mem_append.mp (by simpa [substSegs] using hc) with h | h
      · exact hv c h
      · exact ih hwf c h

/-- A brace-free character list cannot contain the literal
`{vlm_description}` token as an infix. -/
theorem no_token_of_braceFree (out : List Char) (hout : BraceFree out) :
    ¬ ("{vlm_description}".toList <:+: out) := by
  intro h
  obtain ⟨p, q, hpq⟩ := h
  have hmem : openBrace ∈ out := by
    rw [← hpq]
    simp only [List.mem_append]
    left; right
    decide
  exact (hout openBrace hmem).1 rfl

/-- `String.mk` is a left inverse of `String.toList`. -/
theorem stringMk_toList (s : String) : String.mk s.toList = s := rfl

/-- C7 counterexample: `"\x7bother\x7d"` is a rewrite template with no
`{vlm_description}` slot, yet the substitution step raises a `KeyError`
(CPython: `KeyError: 'other'`) instead of using the template verbatim:
`.format` fails on every unknown replacement field, so the "used verbatim"
half of the claim holds only for templates containing no replacement field
at all. -/
theorem C7_counterexample :
    pyFormat "\x7bother\x7d" "a red door"
        = Except.error (PyError.formatKeyError "other")
      ∧ pyFormat "\x7bother\x7d" "a red door" ≠ Except.ok "\x7bother\x7d" :=
  ⟨by decide, by decide⟩

/-- C7 amended: restrict the quantification to templates whose braces
occur only as `{vlm_description}` fields (brace-free text around the
fields).  Then a template with exactly one field, filled with a brace-free
vision response, yields a prompt containing the response as a literal
substring and no remaining `{vlm_description}` token; and a template with
no replacement field at all (brace-free) is used verbatim.  Templates with
any other replacement field or stray brace instead raise a formatting
error, which the orchestrator turns into a FAILED attempt. -/
theorem C7_amended_substitution (segs : List TemplateSeg) (v : String)
    (hwf : SegsWellFormed segs)
    (hone : fieldCount segs = 1)
    (hv : BraceFree v.toList) :
    (∃ out : String,
        pyFormat (String.mk (renderSegs segs)) v = Except.ok out
        ∧ v.toList <:+: out.toList
        ∧ ¬ ("{vlm_description}".toList <:+: out.toList))
      ∧ ∀ t : String, BraceFree t.toList → pyFormat t v = Except.ok t := by
  constructor
  · refine ⟨String.mk (substSegs v.toList segs), ?_, ?_, ?_⟩
    · unfold pyFormat
      rw [show (String.mk (renderSegs segs)).toList = renderSegs segs from rfl,
        formatScan_render v.toList segs hwf]
    · rw [show (String.mk (substSegs v.toList segs)).toList
          = substSegs v.toList segs from rfl]
      exact substSegs_infix v.toList segs (by rw [hone])
    · rw [show (String.mk (substSegs v.toList segs)).toList
          = substSegs v.toList segs from rfl]
      exact no_token_of_braceFree _ (substSegs_braceFree v.toList segs hwf hv)
  · intro t ht
    unfold pyFormat
    have h := formatScan_text v.toList t.toList [] ht
    rw [List.append_nil] at h
    rw [h]
    simp [formatScan, mapOut, stringMk_toList]

/-- The segment list of the template `"Vision said: {vlm_description}."`. -/
def segsExample : List TemplateSeg :=
  [TemplateSeg.text "Vision said: ".toList, TemplateSeg.field,
    TemplateSeg.text ".".toList]

/-- Witness for C7's amended statement at a concrete template and
response. -/
theorem C7_amended_witness :
    SegsWellFormed segsExample
      ∧ fieldCount segsExample = 1
      ∧ BraceFree ("a red door".toList)
      ∧ (∃ out : String,
          pyFormat (String.mk (renderSegs segsExample)) "a red door"
              = Except.ok out
            ∧ ("a red door".toList <:+: out.toList)
            ∧ ¬ ("{vlm_description}".toList <:+: out.toList))
      ∧ pyFormat "no slot here" "a red door" = Except.ok "no slot here" :=
  have h := C7_amended_substitution segsExample "a red door" (by decide)
    (by decide) (by decide)
  ⟨by decide, by decide, by decide, h.1, h.2 "no slot here" (by decide)⟩

end Drishtikon
